import Mathlib

/-!
Verification of the process-lifecycle and periodic-job orchestration layer
of the intentkit repository: the standalone scheduler runtime
(src/app/twitter.py) and the service runtime's lifespan hook
(src/app/api.py).

The two source files are thin entrypoints over an external scheduling
library (apscheduler) whose code is not part of this repository; the
scheduler operations themselves (register, start, stop) are therefore
modelled from the specification (each such definition is marked
"Modelled from the spec"), while the control flow of the entrypoints is
translated directly from the source.
-/

namespace App

/-- Truthiness of the optional DSN string, as Python evaluates
`if config.sentry_dsn:` — absent or empty means falsy. -/
def truthy : Option String → Bool
  | none => false
  | some s => s ≠ ""

/-- The configuration snapshot read by the two entrypoints: the optional
Sentry DSN and the job interval in minutes
(`config.twitter_entrypoint_interval`). -/
structure Config where
  sentry_dsn : Option String
  twitter_entrypoint_interval : Int
  deriving Repr, DecidableEq

/-- Python exceptions that can cross the boundaries visible in the two
entrypoints. `SystemExit` carries the exit status passed to `sys.exit`. -/
inductive PyExc
  | ConfigurationError
  | KeyboardInterrupt
  | SystemExit (code : Nat)
  | InfraError
  | OtherError
  deriving Repr, DecidableEq

/-- Lifecycle state of a scheduler instance. -/
inductive SchedulerState
  | created
  | running
  | stopped
  deriving Repr, DecidableEq

/-- A scheduler instance: its lifecycle state and the intervals of its
registered jobs (the set of active JobEntry records). -/
structure Scheduler where
  state : SchedulerState
  jobs : List Int
  deriving Repr, DecidableEq

/-- A freshly constructed scheduler (`BlockingScheduler()`): not yet
started, with no registered jobs. -/
def Scheduler.new : Scheduler := { state := .created, jobs := [] }

/-- Modelled from the spec: `register(jobEntry)` / `add_job` of the
scheduling library (not in src/). Fails with `ConfigurationError` when
the interval is not positive, leaving the scheduler unchanged; otherwise
adds the job entry. -/
def Scheduler.add_job (s : Scheduler) (interval : Int) : Except PyExc Scheduler :=
  if interval ≤ 0 then .error .ConfigurationError
  else .ok { s with jobs := s.jobs ++ [interval] }

/-- Modelled from the spec: `stop()` / `shutdown()` of the scheduling
library (not in src/). Requests that no further firings begin; idempotent,
a no-op on an already-stopped or never-started scheduler, never an error.
Job entries are destroyed when the scheduler is stopped. -/
def Scheduler.shutdown (_s : Scheduler) : Except PyExc Scheduler :=
  .ok { state := .stopped, jobs := [] }

/-- The two OS termination signals the standalone runtime handles. -/
inductive Signal
  | SIGINT
  | SIGTERM
  deriving Repr, DecidableEq

/-- Observable events of the standalone runtime, in program order. -/
inductive Event
  | sentryInit
  | initDb
  | addJob (interval : Int)
  | installHandler (sig : Signal)
  | schedStart
  | schedShutdown
  | sysExitCall (code : Nat)
  deriving Repr, DecidableEq

/-- The result of one invocation of the installed signal handler: the
scheduler state it leaves behind, the events it performed, and the
exception (if any) it raises out of the signal-handling context. -/
structure HandlerResult where
  sched : Scheduler
  events : List Event
  raised : Option PyExc
  deriving Repr, DecidableEq

/-- The `signal_handler` installed in twitter.py (lines 34-36): it calls
`scheduler.shutdown()` and then `sys.exit(0)`; the `sys.exit(0)` call
raises `SystemExit 0` from inside the signal-handling context. -/
def signal_handler (_signum : Signal) (sched : Scheduler) : HandlerResult :=
  match sched.shutdown with
  | .ok s2 =>
      { sched := s2
        events := [.schedShutdown, .sysExitCall 0]
        raised := some (.SystemExit 0) }
  | .error e =>
      { sched := sched, events := [.schedShutdown], raised := some e }

/-- Sequential delivery of a list of signals to the installed handler,
as the Python runtime serialises handler invocations on the main thread.
Returns the final scheduler state, the concatenated handler events, and
the exception left propagating after the last delivery. -/
def deliverSignals : Scheduler → List Signal → Scheduler × List Event × Option PyExc
  | sched, [] => (sched, [], none)
  | sched, sig :: rest =>
      let r := signal_handler sig sched
      let (sched2, evs2, exc2) := deliverSignals r.sched rest
      (sched2, r.events ++ evs2, match exc2 with | none => r.raised | some e => some e)

/-- What happens while `scheduler.start()` blocks the main thread:
either no shutdown trigger ever arrives, or a nonempty sequence of
signals is delivered, or an exception is raised out of the blocking
call directly. -/
inductive StartBehavior
  | blockForever
  | signalsArrive (first : Signal) (rest : List Signal)
  | raises (e : PyExc)

/-- The `try: scheduler.start() except (KeyboardInterrupt, SystemExit):
pass` clause of twitter.py (lines 41-44): it swallows exactly
`KeyboardInterrupt` and `SystemExit` and lets anything else propagate. -/
def mainTryExcept : Option PyExc → Option PyExc
  | some .KeyboardInterrupt => none
  | some (.SystemExit _) => none
  | e => e

/-- The process exit status determined by the exception (if any) left
unhandled at the end of the module: falling off the end exits 0, an
unhandled `SystemExit c` exits with status `c`, and any other unhandled
exception makes the interpreter exit 1. -/
def exitCodeOf : Option PyExc → Nat
  | none => 0
  | some (.SystemExit c) => c
  | some _ => 1

/-- The outcome of running the standalone entrypoint: the ordered trace
of events, the process exit status (`none` while still blocked in the
scheduler), and the final scheduler state when one was created. -/
structure Outcome where
  trace : List Event
  exit : Option Nat
  sched : Option Scheduler
  deriving Repr, DecidableEq

/-- The `if __name__ == "__main__"` block of twitter.py (lines 23-44),
parameterised by whether `init_db` succeeds and by what happens during
the blocking `scheduler.start()` call: initialise infrastructure, create
the scheduler, `add_job` with the configured interval, install the
SIGINT and SIGTERM handlers, then run the scheduler under the
try/except. -/
def standaloneBody (interval : Int) (initDbOk : Bool) (sb : StartBehavior) : Outcome :=
  if initDbOk = false then
    { trace := [.initDb], exit := some (exitCodeOf (some .InfraError)), sched := none }
  else
    match Scheduler.new.add_job interval with
    | .error _ =>
        { trace := [.initDb, .addJob interval]
          exit := some (exitCodeOf (some .ConfigurationError))
          sched := some Scheduler.new }
    | .ok sched1 =>
        let pre : List Event :=
          [.initDb, .addJob interval, .installHandler .SIGINT, .installHandler .SIGTERM,
           .schedStart]
        match sb with
        | .blockForever =>
            { trace := pre, exit := none, sched := some { sched1 with state := .running } }
        | .raises e =>
            { trace := pre
              exit := some (exitCodeOf (mainTryExcept (some e)))
              sched := some { sched1 with state := .running } }
        | .signalsArrive s rest =>
            let d := deliverSignals { sched1 with state := .running } (s :: rest)
            { trace := pre ++ d.2.1
              exit := some (exitCodeOf (mainTryExcept d.2.2))
              sched := some d.1 }

/-- Module import plus `__main__` of twitter.py: the module-level
conditional Sentry initialisation (lines 14-21) followed by the
entrypoint body. -/
def standaloneMain (cfg : Config) (initDbOk : Bool) (sb : StartBehavior) : Outcome :=
  let body := standaloneBody cfg.twitter_entrypoint_interval initDbOk sb
  { body with
      trace := (if truthy cfg.sentry_dsn then [Event.sentryInit] else []) ++ body.trace }

/-- Observable events of the service runtime's lifespan hook. -/
inductive LifespanEvent
  | sentryInit
  | initDb
  | startScheduler
  | serve
  | shutdownScheduler
  deriving Repr, DecidableEq

/-- How the serving phase (the `yield` point of the lifespan context
manager) terminates: normally, or with an exception thrown in. -/
inductive ServeOutcome
  | normal
  | raises (e : PyExc)

/-- The `lifespan` async context manager of api.py (lines 37-59),
parameterised by whether `init_db` succeeds and how the serving phase
exits: `init_db`, `start_scheduler()`, yield to the server, then
`scheduler.shutdown()`. There is no try/finally around the yield, so an
exception thrown in at the yield point propagates without reaching the
shutdown line. Returns the trace of events and the exception (if any)
propagating out of the hook. -/
def lifespan (initDbOk : Bool) (so : ServeOutcome) : List LifespanEvent × Option PyExc :=
  if initDbOk = false then
    ([.initDb], some .InfraError)
  else
    match so with
    | .normal => ([.initDb, .startScheduler, .serve, .shutdownScheduler], none)
    | .raises e => ([.initDb, .startScheduler, .serve], some e)

/-- Module import of api.py: the module-level conditional Sentry
initialisation (lines 27-34). -/
def apiModuleInit (cfg : Config) : List LifespanEvent :=
  if truthy cfg.sentry_dsn then [LifespanEvent.sentryInit] else []

/-- Recogniser for scheduler-shutdown events. -/
def isShutdown : Event → Bool
  | .schedShutdown => true
  | _ => false

/-- Number of scheduler-shutdown invocations recorded in a trace. -/
def shutdownCount (tr : List Event) : Nat :=
  tr.countP isShutdown

/-- Recogniser for job-registration events. -/
def isAddJob : Event → Bool
  | .addJob _ => true
  | _ => false

/-- Recogniser for the Sentry-initialisation event. -/
def isSentryInit : Event → Bool
  | .sentryInit => true
  | _ => false

/-- A sample configuration with no DSN and a one-minute interval. -/
def cfgEx : Config := { sentry_dsn := none, twitter_entrypoint_interval := 1 }

/-- A sample configuration with no DSN and a non-positive interval. -/
def cfgBad : Config := { sentry_dsn := none, twitter_entrypoint_interval := 0 }

/-- A sample scheduler in the running state with one registered job. -/
def schedRun : Scheduler := { state := .running, jobs := [1] }

/-- The exception left propagating after a sequence of signal
deliveries: none when no signal arrived, otherwise the `SystemExit 0`
raised by the last handler invocation. -/
theorem deliverSignals_exc_aux (sched : Scheduler) (sigs : List Signal) :
    (deliverSignals sched sigs).2.2 =
      if sigs = [] then none else some (.SystemExit 0) := by
  induction sigs generalizing sched with
  | nil => simp [deliverSignals]
  | cons s rest ih =>
      simp only [deliverSignals]
      rw [ih]
      cases rest <;> simp [signal_handler, Scheduler.shutdown]

/-- After at least one signal delivery the exception left propagating is
the `SystemExit 0` raised by the last handler invocation. -/
theorem deliverSignals_exc (sched : Scheduler) (sig : Signal) (rest : List Signal) :
    (deliverSignals sched (sig :: rest)).2.2 = some (.SystemExit 0) := by
  rw [deliverSignals_exc_aux]
  simp

/-- The scheduler state after a sequence of signal deliveries: unchanged
when no signal arrived, otherwise stopped with its jobs destroyed. -/
theorem deliverSignals_sched_aux (sched : Scheduler) (sigs : List Signal) :
    (deliverSignals sched sigs).1 =
      if sigs = [] then sched else { state := .stopped, jobs := [] } := by
  induction sigs generalizing sched with
  | nil => simp [deliverSignals]
  | cons s rest ih =>
      simp only [deliverSignals]
      rw [ih]
      cases rest <;> simp [signal_handler, Scheduler.shutdown]

/-- After at least one signal delivery the scheduler is stopped with its
job entries destroyed. -/
theorem deliverSignals_sched (sched : Scheduler) (sig : Signal) (rest : List Signal) :
    (deliverSignals sched (sig :: rest)).1 = { state := .stopped, jobs := [] } := by
  rw [deliverSignals_sched_aux]
  simp

/-- The events produced by delivering signals are one handler record per
delivered signal, in order. -/
theorem deliverSignals_events (sched : Scheduler) (sigs : List Signal) :
    (deliverSignals sched sigs).2.1 =
      sigs.flatMap (fun _ => [Event.schedShutdown, Event.sysExitCall 0]) := by
  induction sigs generalizing sched with
  | nil => simp [deliverSignals]
  | cons s2 rest2 ih =>
      simp only [deliverSignals]
      rw [ih]
      simp [signal_handler, Scheduler.shutdown]

/-- With infrastructure up and a positive interval, the trace of the
standalone runtime under signal deliveries is the startup sequence
followed by the handler events. -/
theorem standaloneMain_trace_signals (cfg : Config)
    (h : 0 < cfg.twitter_entrypoint_interval) (sig : Signal) (rest : List Signal) :
    standaloneMain cfg true (.signalsArrive sig rest) =
      { trace := (if truthy cfg.sentry_dsn then [Event.sentryInit] else []) ++
          [.initDb, .addJob cfg.twitter_entrypoint_interval, .installHandler .SIGINT,
           .installHandler .SIGTERM, .schedStart] ++
          (sig :: rest).flatMap (fun _ => [Event.schedShutdown, Event.sysExitCall 0])
        exit := some 0
        sched := some { state := .stopped, jobs := [] } } := by
  have hle : ¬ (cfg.twitter_entrypoint_interval ≤ 0) := not_le.mpr h
  simp only [standaloneMain, standaloneBody, Scheduler.add_job, Scheduler.new, if_neg hle]
  rw [deliverSignals_exc, deliverSignals_sched, deliverSignals_events]
  simp [mainTryExcept, exitCodeOf]

/-- With infrastructure up and a positive interval, the standalone
runtime with no shutdown trigger performs exactly the startup sequence
and stays blocked in the running scheduler. -/
theorem standaloneMain_blockForever (cfg : Config)
    (h : 0 < cfg.twitter_entrypoint_interval) :
    standaloneMain cfg true .blockForever =
      { trace := (if truthy cfg.sentry_dsn then [Event.sentryInit] else []) ++
          [.initDb, .addJob cfg.twitter_entrypoint_interval, .installHandler .SIGINT,
           .installHandler .SIGTERM, .schedStart]
        exit := none
        sched := some { state := .running,
                        jobs := [cfg.twitter_entrypoint_interval] } } := by
  have hle : ¬ (cfg.twitter_entrypoint_interval ≤ 0) := not_le.mpr h
  simp [standaloneMain, standaloneBody, Scheduler.add_job, Scheduler.new, if_neg hle]

/-- When `init_db` fails, the standalone runtime records only the
initialisation attempt and exits with status 1. -/
theorem standaloneMain_initDb_fails (cfg : Config) (sb : StartBehavior) :
    standaloneMain cfg false sb =
      { trace := (if truthy cfg.sentry_dsn then [Event.sentryInit] else []) ++
          [Event.initDb]
        exit := some 1
        sched := none } := by
  simp [standaloneMain, standaloneBody, exitCodeOf]

/-- No trace produced by signal deliveries contains a Sentry event. -/
theorem deliverSignals_no_sentry (sched : Scheduler) (sigs : List Signal) :
    Event.sentryInit ∉ (deliverSignals sched sigs).2.1 := by
  rw [deliverSignals_events]
  induction sigs with
  | nil => simp
  | cons s rest ih => simp [List.flatMap_cons, ih]

/-- The entrypoint body never records a Sentry event: the conditional
Sentry initialisation happens only at module level. -/
theorem standaloneBody_no_sentry (i : Int) (b : Bool) (sb : StartBehavior) :
    Event.sentryInit ∉ (standaloneBody i b sb).trace := by
  cases b with
  | false => simp [standaloneBody]
  | true =>
      by_cases hle : i ≤ 0
      · simp [standaloneBody, Scheduler.add_job, Scheduler.new, if_pos hle]
      · cases sb with
        | blockForever =>
            simp [standaloneBody, Scheduler.add_job, Scheduler.new, if_neg hle]
        | raises e =>
            simp [standaloneBody, Scheduler.add_job, Scheduler.new, if_neg hle]
        | signalsArrive s rest =>
            simp only [standaloneBody, Scheduler.add_job, Scheduler.new, if_neg hle]
            simp [deliverSignals_no_sentry]

/-- An absent DSN is falsy. -/
theorem truthy_none : truthy none = false := rfl

/-- The Sentry event is recognised by `isSentryInit`. -/
theorem isSentryInit_sentryInit : isSentryInit Event.sentryInit = true := rfl

/-- Filtering out Sentry events is the identity on a trace without
them. -/
theorem filter_no_sentry (tr : List Event) (h : Event.sentryInit ∉ tr) :
    tr.filter (fun e => ! isSentryInit e) = tr := by
  induction tr with
  | nil => rfl
  | cons a l ih =>
      simp only [List.mem_cons, not_or] at h
      have ha : isSentryInit a = false := by
        cases a <;> first | rfl | exact absurd rfl h.1
      simp [List.filter_cons, ha, ih h.2]

/-- C1: in the standalone runtime, a delivery of SIGINT or SIGTERM while
the scheduler is running makes the installed handler stop the scheduler
and then call `sys.exit(0)`, and the process exits with status 0. -/
theorem C1_signal_stops_scheduler_then_exits_zero (cfg : Config)
    (h : 0 < cfg.twitter_entrypoint_interval) (sig : Signal) (rest : List Signal)
    (sched : Scheduler) (_hrun : sched.state = .running) :
    (signal_handler sig sched).sched.state = .stopped ∧
    (signal_handler sig sched).events = [.schedShutdown, .sysExitCall 0] ∧
    (standaloneMain cfg true (.signalsArrive sig rest)).exit = some 0 := by
  refine ⟨by simp [signal_handler, Scheduler.shutdown],
          by simp [signal_handler, Scheduler.shutdown], ?_⟩
  rw [standaloneMain_trace_signals cfg h sig rest]

/-- Witness for C1 at a concrete configuration, signal and scheduler. -/
theorem C1_signal_stops_scheduler_then_exits_zero_witness :
    (signal_handler .SIGINT schedRun).sched.state = .stopped ∧
    (signal_handler .SIGINT schedRun).events = [.schedShutdown, .sysExitCall 0] ∧
    (standaloneMain cfgEx true (.signalsArrive .SIGINT [])).exit = some 0 :=
  C1_signal_stops_scheduler_then_exits_zero cfgEx (by decide) .SIGINT [] schedRun
    (by decide)

/-- C2 (counterexample): when the serving phase of the service runtime
exits exceptionally, the lifespan hook skips `scheduler.shutdown()`, so
shutdown is not attempted on that exit path before the process exits. -/
theorem C2_counterexample :
    ¬ (LifespanEvent.shutdownScheduler ∈ (lifespan true (.raises .OtherError)).1) := by
  decide

/-- C2 (amended): shutdown of the active scheduler is attempted before
exit on the standalone runtime's signal-triggered paths and on a normal
context-manager exit of the service lifespan; but on an exceptional exit
of the serving phase the lifespan (which has no try/finally around its
yield) skips the scheduler shutdown. -/
theorem C2_shutdown_before_exit_amended (cfg : Config)
    (h : 0 < cfg.twitter_entrypoint_interval) (sig : Signal) (rest : List Signal)
    (e : PyExc) :
    Event.schedShutdown ∈ (standaloneMain cfg true (.signalsArrive sig rest)).trace ∧
    LifespanEvent.shutdownScheduler ∈ (lifespan true .normal).1 ∧
    LifespanEvent.shutdownScheduler ∉ (lifespan true (.raises e)).1 := by
  refine ⟨?_, by simp [lifespan], by simp [lifespan]⟩
  rw [standaloneMain_trace_signals cfg h sig rest]
  simp [List.flatMap_cons]

/-- Witness for C2's amended statement at concrete inputs. -/
theorem C2_shutdown_before_exit_amended_witness :
    Event.schedShutdown ∈ (standaloneMain cfgEx true (.signalsArrive .SIGINT [])).trace ∧
    LifespanEvent.shutdownScheduler ∈ (lifespan true .normal).1 ∧
    LifespanEvent.shutdownScheduler ∉ (lifespan true (.raises .OtherError)).1 :=
  C2_shutdown_before_exit_amended cfgEx (by decide) .SIGINT [] .OtherError

/-- C3 (counterexample): with SIGINT and SIGTERM delivered in quick
succession, the scheduler's stop is not invoked exactly once — the
unguarded handler runs once per delivery and invokes shutdown twice. -/
theorem C3_counterexample :
    ¬ (shutdownCount
        (standaloneMain cfgEx true (.signalsArrive .SIGINT [.SIGTERM])).trace = 1) := by
  decide

/-- C3 (amended): each delivered signal invokes the scheduler's shutdown
once, so two signals in quick succession invoke it twice rather than
once; the second invocation is a no-op on the already-stopped scheduler,
and exactly one shutdown outcome and one process exit with status 0
occur. -/
theorem C3_two_signals_amended (cfg : Config)
    (h : 0 < cfg.twitter_entrypoint_interval) (s1 s2 : Signal) (sched : Scheduler) :
    shutdownCount (standaloneMain cfg true (.signalsArrive s1 [s2])).trace = 2 ∧
    (standaloneMain cfg true (.signalsArrive s1 [s2])).exit = some 0 ∧
    (standaloneMain cfg true (.signalsArrive s1 [s2])).sched =
      some { state := .stopped, jobs := [] } ∧
    (signal_handler s2 (signal_handler s1 sched).sched).sched =
      (signal_handler s1 sched).sched := by
  have hm := standaloneMain_trace_signals cfg h s1 [s2]
  refine ⟨?_, by rw [hm], by rw [hm], by simp [signal_handler, Scheduler.shutdown]⟩
  rw [hm]
  by_cases hd : truthy cfg.sentry_dsn <;>
    simp [hd, shutdownCount, isShutdown, List.countP_append, List.countP_cons,
      List.flatMap_cons]

/-- Witness for C3's amended statement at concrete inputs. -/
theorem C3_two_signals_amended_witness :
    shutdownCount (standaloneMain cfgEx true (.signalsArrive .SIGINT [.SIGTERM])).trace = 2 ∧
    (standaloneMain cfgEx true (.signalsArrive .SIGINT [.SIGTERM])).exit = some 0 ∧
    (standaloneMain cfgEx true (.signalsArrive .SIGINT [.SIGTERM])).sched =
      some { state := .stopped, jobs := [] } ∧
    (signal_handler .SIGTERM (signal_handler .SIGINT schedRun).sched).sched =
      (signal_handler .SIGINT schedRun).sched :=
  C3_two_signals_amended cfgEx (by decide) .SIGINT .SIGTERM schedRun

/-- C4 (counterexample): the installed handler does raise inside the
signal-handling context — its `sys.exit(0)` call raises `SystemExit`. -/
theorem C4_counterexample :
    ¬ ((signal_handler .SIGINT schedRun).raised = none) := by
  decide

/-- C4 (amended): the handler performs the scheduler shutdown inside the
signal-handling context and raises `SystemExit 0` via `sys.exit(0)`; the
exception is then caught on the normal control-flow path by the
entrypoint's try/except. -/
theorem C4_handler_raises_amended (sig : Signal) (sched : Scheduler) :
    (signal_handler sig sched).raised = some (.SystemExit 0) ∧
    Event.schedShutdown ∈ (signal_handler sig sched).events ∧
    mainTryExcept (some (.SystemExit 0)) = none := by
  refine ⟨?_, ?_, rfl⟩ <;> simp [signal_handler, Scheduler.shutdown]

/-- C5: stopping a scheduler always succeeds — on a never-started
scheduler it is a successful no-op, and a second stop after a stop
returns the stopped scheduler unchanged. -/
theorem C5_stop_idempotent (s : Scheduler) :
    (∃ s2, s.shutdown = .ok s2) ∧
    (s.state = .created → s.shutdown = .ok { state := .stopped, jobs := [] }) ∧
    (∀ s2, s.shutdown = .ok s2 → s2.shutdown = .ok s2) := by
  refine ⟨⟨{ state := .stopped, jobs := [] }, rfl⟩, fun _ => rfl, fun s2 h2 => ?_⟩
  have h3 : ({ state := .stopped, jobs := [] } : Scheduler) = s2 := by
    simpa [Scheduler.shutdown] using h2
  rw [← h3]
  rfl

/-- Witness for C5 on a fresh scheduler and on an already-stopped one. -/
theorem C5_stop_idempotent_witness :
    Scheduler.new.shutdown = .ok { state := .stopped, jobs := [] } ∧
    (Scheduler.mk .stopped []).shutdown = .ok (Scheduler.mk .stopped []) :=
  ⟨(C5_stop_idempotent Scheduler.new).2.1 rfl,
   (C5_stop_idempotent Scheduler.new).2.2 (Scheduler.mk .stopped []) rfl⟩

/-- C6: registering a job with a non-positive interval fails with
`ConfigurationError`; in the standalone run the failure happens before
`start()` is attempted and the scheduler keeps its fresh, empty job
set. -/
theorem C6_nonpositive_interval_rejected (cfg : Config) (s : Scheduler)
    (h : cfg.twitter_entrypoint_interval ≤ 0) (sb : StartBehavior) :
    s.add_job cfg.twitter_entrypoint_interval = .error .ConfigurationError ∧
    (standaloneMain cfg true sb).sched = some Scheduler.new ∧
    Event.schedStart ∉ (standaloneMain cfg true sb).trace := by
  refine ⟨by simp [Scheduler.add_job, if_pos h], ?_, ?_⟩
  · simp [standaloneMain, standaloneBody, Scheduler.add_job, Scheduler.new, if_pos h]
  · by_cases hd : truthy cfg.sentry_dsn <;>
      simp [standaloneMain, standaloneBody, Scheduler.add_job, Scheduler.new,
        if_pos h, hd]

/-- Witness for C6 with a zero interval. -/
theorem C6_nonpositive_interval_rejected_witness :
    Scheduler.new.add_job cfgBad.twitter_entrypoint_interval =
      .error .ConfigurationError ∧
    (standaloneMain cfgBad true .blockForever).sched = some Scheduler.new ∧
    Event.schedStart ∉ (standaloneMain cfgBad true .blockForever).trace :=
  C6_nonpositive_interval_rejected cfgBad Scheduler.new (by decide) .blockForever

/-- C7: when infrastructure initialisation fails, the scheduler is never
started, no job registration is attempted, and the standalone process
exits non-zero; in the service runtime the scheduler is likewise never
started. -/
theorem C7_initdb_failure_aborts (cfg : Config) (sb : StartBehavior)
    (so : ServeOutcome) :
    Event.schedStart ∉ (standaloneMain cfg false sb).trace ∧
    (∀ i : Int, Event.addJob i ∉ (standaloneMain cfg false sb).trace) ∧
    (∃ c, (standaloneMain cfg false sb).exit = some c ∧ c ≠ 0) ∧
    LifespanEvent.startScheduler ∉ (lifespan false so).1 := by
  have hm := standaloneMain_initDb_fails cfg sb
  refine ⟨?_, ?_, ⟨1, by rw [hm], by decide⟩, by simp [lifespan]⟩
  · rw [hm]
    by_cases hd : truthy cfg.sentry_dsn <;> simp [hd]
  · intro i
    rw [hm]
    by_cases hd : truthy cfg.sentry_dsn <;> simp [hd]

/-- C8: with infrastructure up and a positive configured interval, the
standalone entrypoint performs, in order, infrastructure initialisation,
exactly one job registration with the configured interval, installation
of the SIGINT and SIGTERM handlers, and then blocks running the
scheduler. -/
theorem C8_startup_sequence (cfg : Config)
    (h : 0 < cfg.twitter_entrypoint_interval) :
    (standaloneMain cfg true .blockForever).trace =
      (if truthy cfg.sentry_dsn then [Event.sentryInit] else []) ++
      [.initDb, .addJob cfg.twitter_entrypoint_interval, .installHandler .SIGINT,
       .installHandler .SIGTERM, .schedStart] ∧
    (standaloneMain cfg true .blockForever).trace.countP isAddJob = 1 ∧
    (standaloneMain cfg true .blockForever).exit = none := by
  have hm := standaloneMain_blockForever cfg h
  refine ⟨by rw [hm], ?_, by rw [hm]⟩
  rw [hm]
  by_cases hd : truthy cfg.sentry_dsn <;>
    simp [hd, List.countP_append, List.countP_cons, isAddJob]

/-- Witness for C8 at a concrete configuration. -/
theorem C8_startup_sequence_witness :
    (standaloneMain cfgEx true .blockForever).trace =
      (if truthy cfgEx.sentry_dsn then [Event.sentryInit] else []) ++
      [.initDb, .addJob cfgEx.twitter_entrypoint_interval, .installHandler .SIGINT,
       .installHandler .SIGTERM, .schedStart] ∧
    (standaloneMain cfgEx true .blockForever).trace.countP isAddJob = 1 ∧
    (standaloneMain cfgEx true .blockForever).exit = none :=
  C8_startup_sequence cfgEx (by decide)

/-- C9: a `KeyboardInterrupt` or `SystemExit` escaping the blocking
scheduler run is caught by the entrypoint's try/except, and control
falls through to a normal exit with status 0. -/
theorem C9_interrupt_and_systemexit_caught (cfg : Config)
    (h : 0 < cfg.twitter_entrypoint_interval) (e : PyExc)
    (he : e = .KeyboardInterrupt ∨ ∃ c, e = .SystemExit c) :
    (standaloneMain cfg true (.raises e)).exit = some 0 := by
  have hle : ¬ (cfg.twitter_entrypoint_interval ≤ 0) := not_le.mpr h
  rcases he with rfl | ⟨c, rfl⟩ <;>
    simp [standaloneMain, standaloneBody, Scheduler.add_job, Scheduler.new,
      if_neg hle, mainTryExcept, exitCodeOf]

/-- Witness for C9 with a `KeyboardInterrupt` escaping the run. -/
theorem C9_interrupt_and_systemexit_caught_witness :
    (standaloneMain cfgEx true (.raises .KeyboardInterrupt)).exit = some 0 :=
  C9_interrupt_and_systemexit_caught cfgEx (by decide) .KeyboardInterrupt (Or.inl rfl)

/-- C10: in both runtimes Sentry is initialised at module import exactly
when the configured DSN is truthy, and with no DSN the rest of the
startup — its events, exit status and scheduler state — is unchanged. -/
theorem C10_sentry_iff_dsn (cfg : Config) (b : Bool) (sb : StartBehavior) :
    (Event.sentryInit ∈ (standaloneMain cfg b sb).trace ↔
      truthy cfg.sentry_dsn = true) ∧
    (LifespanEvent.sentryInit ∈ apiModuleInit cfg ↔ truthy cfg.sentry_dsn = true) ∧
    (standaloneMain { cfg with sentry_dsn := none } b sb).exit =
      (standaloneMain cfg b sb).exit ∧
    (standaloneMain { cfg with sentry_dsn := none } b sb).sched =
      (standaloneMain cfg b sb).sched ∧
    (standaloneMain { cfg with sentry_dsn := none } b sb).trace =
      (standaloneMain cfg b sb).trace.filter (fun e => ! isSentryInit e) := by
  refine ⟨?_, ?_, by simp [standaloneMain], by simp [standaloneMain], ?_⟩
  · by_cases hd : truthy cfg.sentry_dsn <;>
      simp [standaloneMain, hd, standaloneBody_no_sentry]
  · by_cases hd : truthy cfg.sentry_dsn <;> simp [apiModuleInit, hd]
  · have hb := filter_no_sentry _
      (standaloneBody_no_sentry cfg.twitter_entrypoint_interval b sb)
    by_cases hd : truthy cfg.sentry_dsn <;>
      simp [standaloneMain, hd, truthy_none, List.filter_append, hb,
        List.filter_cons, isSentryInit_sentryInit]

end App
